import Mathlib

/-!
Verification of the core signal-processing pipeline of `src/app.py`
(ElderHearingFreqLossSim).

The core under scrutiny is:

* `butter_lowpass_filter(data, cutoff, fs, order=5)` (src/app.py lines 62-71):
  computes `nyq = 0.5 * fs`, `normal_cutoff = cutoff / nyq`, clamps the
  normalized cutoff to `0.99` when it is `>= 1`, designs a Butterworth
  low-pass filter via `scipy.signal.butter` and applies it with
  `scipy.signal.lfilter`.
* `process_audio(data, fs, cutoff_freq)` (src/app.py lines 73-86): filters the
  buffer, computes `max_val = np.max(np.abs(data))`, and if `max_val > 0`
  rescales via `librosa.util.normalize(filtered_data) * max_val`.

Samples are modelled as exact rationals (`ℚ`): finite IEEE doubles are a
subset of `ℚ` and every operation the pipeline performs on finite values
(add, mul, div, abs, max, comparisons) is modelled exactly, without rounding.
A second model (`PyFloat`, further down) extends the sample domain with the
IEEE special values `nan`, `+inf`, `-inf` for the claims that are about
non-finite inputs.

Library semantics embedded from the libraries the source calls:

* `numpy`: `np.max` over an empty array raises
  `ValueError: zero-size array to reduction operation`; over a non-empty
  array of non-negative values (here `np.abs(data)`) it is the maximum.
* `scipy.signal.butter(N, Wn, btype='low', analog=False)`: raises
  `ValueError` unless `0 < Wn < 1` (digital critical frequency check in
  `iirfilter`) and raises `ValueError` for a negative order `N` (in
  `buttap`); `N = 0` is accepted.  On success it returns coefficient arrays
  `(b, a)` with `a[0] = 1`.  The coefficient values themselves are
  transcendental (analog prototype poles plus bilinear transform), so the
  coefficient table is an explicit parameter `bcoef` of the model; no claim
  below depends on the concrete values, only on the success conditions and,
  via hypotheses, on the documented contract `a[0] = 1`.
* `scipy.signal.lfilter(b, a, x)`: the direct-form difference equation
  `a[0]*y[n] = sum_{k<len b, k<=n} b[k]*x[n-k] - sum_{1<=k<len a, k<=n} a[k]*y[n-k]`,
  output length equal to input length.
* `librosa.util.normalize(S)` (defaults `norm=np.inf, axis=0,
  threshold=None, fill=None`): raises `ParameterError` when the input has a
  non-finite entry; computes `length = np.max(np.abs(S))` (raising the numpy
  `ValueError` on an empty input); entries are divided by `length` except
  that when `length < tiny(S) = 2.2250738585072014e-308 = 2 ^ (-1022)` the
  divisor is replaced by `1.0`, leaving the buffer un-normalized.
* Python itself: `cutoff / nyq` raises `ZeroDivisionError` when `nyq == 0`,
  i.e. when `fs == 0`.
-/

/-- Python-level exceptions that the pipeline can surface:
`ZeroDivisionError` (float division by zero), `ValueError` (numpy/scipy
argument checks) and `librosa.ParameterError`. -/
inductive PyError where
  | zeroDivisionError
  | valueError
  | parameterError
deriving DecidableEq

/-- The smallest positive normal IEEE-754 double, `np.finfo(np.float64).tiny`;
this is the default `threshold` of `librosa.util.normalize`. -/
def tiny : ℚ := 1 / 2 ^ 1022

/-- Maximum of the absolute values of a list of samples, with `0` for the
empty list; on a non-empty list this equals `np.max(np.abs(xs))` because all
entries of `np.abs(xs)` are non-negative. -/
def maxAbs (xs : List ℚ) : ℚ := xs.foldr (fun v m => max |v| m) 0

/-- Embedding of `np.max(np.abs(data))`: numpy raises `ValueError` on a
zero-size reduction. -/
def np_max_abs (data : List ℚ) : Except PyError ℚ :=
  if data = [] then Except.error PyError.valueError else Except.ok (maxAbs data)

/-- One truncated convolution-style sum of the `lfilter` difference equation:
`sum over k in [lo, min (length c) (n+1)) of c[k] * x[n-k]`. -/
def dotRev (c x : List ℚ) (n lo : ℕ) : ℚ :=
  (List.range (min c.length (n + 1))).foldr
    (fun k s => if lo ≤ k then c.getD k 0 * x.getD (n - k) 0 + s else s) 0

/-- The next output sample of `scipy.signal.lfilter`: given the outputs `ys`
already produced (so the next index is `n = ys.length`),
`y[n] = (sum_k b[k]*x[n-k] - sum_{k>=1} a[k]*y[n-k]) / a[0]`. -/
def lfilterNext (b a x ys : List ℚ) : ℚ :=
  (dotRev b x ys.length 0 - dotRev a ys ys.length 1) / a.getD 0 0

/-- First `n` output samples of `scipy.signal.lfilter b a x`. -/
def lfilterAux (b a x : List ℚ) : ℕ → List ℚ
  | 0 => []
  | n + 1 => lfilterAux b a x n ++ [lfilterNext b a x (lfilterAux b a x n)]

/-- Embedding of `scipy.signal.lfilter(b, a, x)`: the direct-form linear
difference equation, one output sample per input sample. -/
def lfilter (b a x : List ℚ) : List ℚ := lfilterAux b a x x.length

/-- The normalized cutoff computed by `butter_lowpass_filter`:
`nyq = 0.5 * fs; normal_cutoff = cutoff / nyq` (src/app.py lines 64-65). -/
def normalized_cutoff (cutoff fs : ℚ) : ℚ := cutoff / (1 / 2 * fs)

/-- The clamping step of `butter_lowpass_filter` (src/app.py lines 67-68):
`if normal_cutoff >= 1: normal_cutoff = 0.99`. -/
def clamp_cutoff (wn : ℚ) : ℚ := if 1 ≤ wn then 99 / 100 else wn

/-- Embedding of `scipy.signal.butter(order, wn, btype='low', analog=False)`:
fails with `ValueError` for a negative order or unless `0 < wn < 1`;
otherwise returns the coefficient pair supplied by the coefficient table
`bcoef` (see the module docstring: the numeric coefficient computation is
transcendental and is abstracted as the parameter `bcoef`). -/
def butter (bcoef : ℤ → ℚ → List ℚ × List ℚ) (order : ℤ) (wn : ℚ) :
    Except PyError (List ℚ × List ℚ) :=
  if order < 0 then Except.error PyError.valueError
  else if 0 < wn ∧ wn < 1 then Except.ok (bcoef order wn)
  else Except.error PyError.valueError

/-- Embedding of `butter_lowpass_filter(data, cutoff, fs, order)`
(src/app.py lines 62-71): `cutoff / (0.5*fs)` raises `ZeroDivisionError`
when `fs == 0`; the normalized cutoff is clamped and passed to `butter`,
and the designed filter is applied with `lfilter`. -/
def butter_lowpass_filter (bcoef : ℤ → ℚ → List ℚ × List ℚ) (data : List ℚ)
    (cutoff fs : ℚ) (order : ℤ) : Except PyError (List ℚ) :=
  if fs = 0 then Except.error PyError.zeroDivisionError
  else
    match butter bcoef order (clamp_cutoff (normalized_cutoff cutoff fs)) with
    | Except.error e => Except.error e
    | Except.ok ba => Except.ok (lfilter ba.1 ba.2 data)

/-- Embedding of `librosa.util.normalize(s)` with its default arguments, on a
buffer of finite samples (the finiteness check cannot fire over `ℚ`; the
`PyFloat` model below also embeds that check).  `np.max(np.abs(s))` raises
`ValueError` on an empty buffer; when the peak is below `tiny` the divisor is
replaced by `1`, leaving the buffer unchanged. -/
def librosa_normalize (s : List ℚ) : Except PyError (List ℚ) :=
  if s = [] then Except.error PyError.valueError
  else Except.ok (s.map (fun v => v / (if maxAbs s < tiny then 1 else maxAbs s)))

/-- Embedding of `process_audio(data, fs, cutoff_freq)` (src/app.py lines
73-86): filter, compute `max_val = np.max(np.abs(data))`, and if
`max_val > 0` replace the filtered buffer by
`librosa.util.normalize(filtered) * max_val`. -/
def process_audio (bcoef : ℤ → ℚ → List ℚ × List ℚ) (data : List ℚ)
    (fs cutoff_freq : ℚ) : Except PyError (List ℚ) :=
  match butter_lowpass_filter bcoef data cutoff_freq fs 5 with
  | Except.error e => Except.error e
  | Except.ok filtered =>
    match np_max_abs data with
    | Except.error e => Except.error e
    | Except.ok max_val =>
      if 0 < max_val then
        match librosa_normalize filtered with
        | Except.error e => Except.error e
        | Except.ok nrm => Except.ok (nrm.map (fun v => v * max_val))
      else Except.ok filtered

/-- A concrete coefficient table used to instantiate witnesses: a first-order
low-pass-shaped design with `a[0] = 1` and `b[0] = wn/2`.  Any table
satisfying the scipy contract would do; no theorem depends on these values. -/
def demoCoeffs : ℤ → ℚ → List ℚ × List ℚ :=
  fun _ wn => ([wn / 2, wn / 2], [1, wn - 1])

/-!
The `PyFloat` model: sample values extended with the IEEE-754 special values
`nan`, `+inf` and `-inf`.  Finite arithmetic is exact (a `fin` value carries
an exact rational); the special values follow the IEEE rules numpy uses:
any operation with a `nan` operand yields `nan`, `inf - inf` and `0 * inf`
and `inf / inf` yield `nan`, comparisons with `nan` are `false`, and
`np.maximum` propagates `nan`.  This model is used for the claims about
non-finite inputs (the gain-compensation stage, src/app.py lines 82-86).
-/

/-- An IEEE-754-style sample value: an exact finite rational, `+inf`, `-inf`
or `nan`. -/
inductive PyFloat where
  | fin : ℚ → PyFloat
  | pinf
  | ninf
  | nan
deriving DecidableEq

/-- IEEE negation. -/
def PyFloat.neg : PyFloat → PyFloat
  | fin q => fin (-q)
  | pinf => ninf
  | ninf => pinf
  | nan => nan

/-- IEEE addition: `nan` propagates, opposite infinities give `nan`. -/
def PyFloat.add : PyFloat → PyFloat → PyFloat
  | nan, _ => nan
  | _, nan => nan
  | pinf, ninf => nan
  | ninf, pinf => nan
  | pinf, _ => pinf
  | _, pinf => pinf
  | ninf, _ => ninf
  | _, ninf => ninf
  | fin a, fin b => fin (a + b)

/-- IEEE subtraction. -/
def PyFloat.sub (x y : PyFloat) : PyFloat := PyFloat.add x (PyFloat.neg y)

/-- IEEE multiplication: `nan` propagates, `0 * inf = nan`. -/
def PyFloat.mul : PyFloat → PyFloat → PyFloat
  | nan, _ => nan
  | _, nan => nan
  | fin a, fin b => fin (a * b)
  | fin a, pinf => if 0 < a then pinf else if a < 0 then ninf else nan
  | fin a, ninf => if 0 < a then ninf else if a < 0 then pinf else nan
  | pinf, fin b => if 0 < b then pinf else if b < 0 then ninf else nan
  | ninf, fin b => if 0 < b then ninf else if b < 0 then pinf else nan
  | pinf, pinf => pinf
  | pinf, ninf => ninf
  | ninf, pinf => ninf
  | ninf, ninf => pinf

/-- IEEE division as numpy performs it (no exception): `nan` propagates,
`inf / inf = nan`, `x / 0` is `nan` for `x = 0` and a signed infinity
otherwise, `finite / inf = 0`. -/
def PyFloat.div : PyFloat → PyFloat → PyFloat
  | nan, _ => nan
  | _, nan => nan
  | fin a, fin b =>
    if b = 0 then (if a = 0 then nan else if 0 < a then pinf else ninf)
    else fin (a / b)
  | fin _, pinf => fin 0
  | fin _, ninf => fin 0
  | pinf, fin b => if 0 ≤ b then pinf else ninf
  | ninf, fin b => if 0 ≤ b then ninf else pinf
  | pinf, pinf => nan
  | pinf, ninf => nan
  | ninf, pinf => nan
  | ninf, ninf => nan

/-- IEEE absolute value. -/
def PyFloat.abs : PyFloat → PyFloat
  | fin q => fin |q|
  | pinf => pinf
  | ninf => pinf
  | nan => nan

/-- `np.maximum`: propagates `nan` from either argument. -/
def PyFloat.max : PyFloat → PyFloat → PyFloat
  | nan, _ => nan
  | _, nan => nan
  | pinf, _ => pinf
  | _, pinf => pinf
  | ninf, b => b
  | a, ninf => a
  | fin a, fin b => fin (Max.max a b)

/-- The Python comparison `x > 0`: `false` for `nan`, `true` for `+inf`. -/
def PyFloat.gtZero : PyFloat → Bool
  | fin q => decide (0 < q)
  | pinf => true
  | ninf => false
  | nan => false

/-- `np.isfinite` on a single value. -/
def PyFloat.isFinite : PyFloat → Bool
  | fin _ => true
  | _ => false

/-- The IEEE comparison `x < y`: `false` whenever an operand is `nan`. -/
def PyFloat.lt : PyFloat → PyFloat → Bool
  | nan, _ => false
  | _, nan => false
  | fin a, fin b => decide (a < b)
  | fin _, pinf => true
  | pinf, _ => false
  | ninf, fin _ => true
  | ninf, pinf => true
  | ninf, ninf => false
  | fin _, ninf => false

/-- `np.max(np.abs(s))` over `PyFloat` samples (maximum of the absolute
values, `nan`-propagating); `0` for the empty list, on which numpy would
raise instead (see `np_max_abs_pf`). -/
def maxAbsPF (xs : List PyFloat) : PyFloat :=
  xs.foldr (fun v m => PyFloat.max (PyFloat.abs v) m) (PyFloat.fin 0)

/-- Embedding of `np.max(np.abs(data))` over `PyFloat` samples: numpy raises
`ValueError` on a zero-size reduction and otherwise propagates `nan`. -/
def np_max_abs_pf (data : List PyFloat) : Except PyError PyFloat :=
  if data = [] then Except.error PyError.valueError
  else Except.ok (maxAbsPF data)

/-- Embedding of `librosa.util.normalize(s)` over `PyFloat` samples, with the
check librosa performs before any arithmetic: a non-finite entry raises
`ParameterError` (librosa: `if not np.all(np.isfinite(S)): raise
ParameterError("Input must be finite")`).  After that check the buffer is
finite and the `ℚ`-model semantics apply verbatim. -/
def librosa_normalize_pf (s : List PyFloat) : Except PyError (List PyFloat) :=
  if s.all PyFloat.isFinite then
    if s = [] then Except.error PyError.valueError
    else
      Except.ok (s.map (fun v =>
        PyFloat.div v (if PyFloat.lt (maxAbsPF s) (PyFloat.fin tiny)
                       then PyFloat.fin 1 else maxAbsPF s)))
  else Except.error PyError.parameterError

/-- Embedding of the gain-compensation stage of `process_audio` (src/app.py
lines 82-86) over `PyFloat` samples:
`max_val = np.max(np.abs(data)); if max_val > 0: filtered =
librosa.util.normalize(filtered) * max_val`. -/
def gain_compensation (data filtered : List PyFloat) :
    Except PyError (List PyFloat) :=
  match np_max_abs_pf data with
  | Except.error e => Except.error e
  | Except.ok max_val =>
    if PyFloat.gtZero max_val then
      match librosa_normalize_pf filtered with
      | Except.error e => Except.error e
      | Except.ok nrm => Except.ok (nrm.map (fun v => PyFloat.mul v max_val))
    else Except.ok filtered

/-- The `dotRev` sum of the `lfilter` difference equation over `PyFloat`
samples (the coefficient arrays produced by `scipy.signal.butter` are finite,
so they stay rational). -/
def dotRevPF (c : List ℚ) (x : List PyFloat) (n lo : ℕ) : PyFloat :=
  (List.range (min c.length (n + 1))).foldr
    (fun k s =>
      if lo ≤ k then
        PyFloat.add (PyFloat.mul (PyFloat.fin (c.getD k 0)) (x.getD (n - k) (PyFloat.fin 0))) s
      else s)
    (PyFloat.fin 0)

/-- The next output sample of `scipy.signal.lfilter` over `PyFloat`. -/
def lfilterNextPF (b a : List ℚ) (x ys : List PyFloat) : PyFloat :=
  PyFloat.div (PyFloat.sub (dotRevPF b x ys.length 0) (dotRevPF a ys ys.length 1))
    (PyFloat.fin (a.getD 0 0))

/-- First `n` output samples of `lfilter` over `PyFloat`. -/
def lfilterAuxPF (b a : List ℚ) (x : List PyFloat) : ℕ → List PyFloat
  | 0 => []
  | n + 1 => lfilterAuxPF b a x n ++ [lfilterNextPF b a x (lfilterAuxPF b a x n)]

/-- Embedding of `scipy.signal.lfilter(b, a, x)` over `PyFloat` samples. -/
def lfilterPF (b a : List ℚ) (x : List PyFloat) : List PyFloat :=
  lfilterAuxPF b a x x.length

/-- Embedding of `butter_lowpass_filter` (src/app.py lines 62-71) over
`PyFloat` samples; `cutoff` and `fs` come from the UI as finite numbers and
stay rational. -/
def butter_lowpass_filter_pf (bcoef : ℤ → ℚ → List ℚ × List ℚ)
    (data : List PyFloat) (cutoff fs : ℚ) (order : ℤ) :
    Except PyError (List PyFloat) :=
  if fs = 0 then Except.error PyError.zeroDivisionError
  else
    match butter bcoef order (clamp_cutoff (normalized_cutoff cutoff fs)) with
    | Except.error e => Except.error e
    | Except.ok ba => Except.ok (lfilterPF ba.1 ba.2 data)

/-- Embedding of `process_audio` (src/app.py lines 73-86) over `PyFloat`
samples: the filtering stage followed by the gain-compensation stage. -/
def process_audio_pf (bcoef : ℤ → ℚ → List ℚ × List ℚ) (data : List PyFloat)
    (fs cutoff_freq : ℚ) : Except PyError (List PyFloat) :=
  match butter_lowpass_filter_pf bcoef data cutoff_freq fs 5 with
  | Except.error e => Except.error e
  | Except.ok filtered => gain_compensation data filtered

/-!
Supporting lemmas.
-/

theorem lfilterAux_length (b a x : List ℚ) (n : ℕ) :
    (lfilterAux b a x n).length = n := by
  induction n with
  | zero => rfl
  | succ n ih => simp [lfilterAux, ih]

theorem lfilter_length (b a x : List ℚ) : (lfilter b a x).length = x.length :=
  lfilterAux_length b a x x.length

theorem getD_replicate_zero (m i : ℕ) :
    (List.replicate m (0 : ℚ)).getD i 0 = 0 := by
  induction m generalizing i with
  | zero => simp
  | succ m ih =>
    cases i with
    | zero => simp [List.replicate]
    | succ i => simp [List.replicate, ih i]

theorem dotRev_of_getD_zero (c x : List ℚ) (n lo : ℕ)
    (hx : ∀ i, x.getD i 0 = 0) : dotRev c x n lo = 0 := by
  unfold dotRev
  generalize List.range (min c.length (n + 1)) = l
  induction l with
  | nil => rfl
  | cons k t ih =>
    simp only [List.foldr_cons]
    split
    · rw [hx, mul_zero, zero_add, ih]
    · exact ih

theorem lfilterNext_zero (b a x ys : List ℚ) (hx : ∀ i, x.getD i 0 = 0)
    (hy : ∀ i, ys.getD i 0 = 0) : lfilterNext b a x ys = 0 := by
  unfold lfilterNext
  rw [dotRev_of_getD_zero b x ys.length 0 hx,
    dotRev_of_getD_zero a ys ys.length 1 hy, sub_zero, zero_div]

theorem lfilterAux_zero (b a : List ℚ) (m n : ℕ) :
    lfilterAux b a (List.replicate m 0) n = List.replicate n 0 := by
  induction n with
  | zero => rfl
  | succ n ih =>
    rw [lfilterAux, ih,
      lfilterNext_zero b a (List.replicate m 0) (List.replicate n 0)
        (getD_replicate_zero m) (getD_replicate_zero n)]
    rw [List.replicate_succ']

theorem lfilter_zero (b a : List ℚ) (m : ℕ) :
    lfilter b a (List.replicate m 0) = List.replicate m 0 := by
  unfold lfilter
  rw [List.length_replicate, lfilterAux_zero]

theorem maxAbs_nonneg (xs : List ℚ) : 0 ≤ maxAbs xs := by
  induction xs with
  | nil => exact le_refl 0
  | cons x t ih => exact le_trans ih (le_max_right _ _)

theorem maxAbs_replicate_zero (n : ℕ) : maxAbs (List.replicate n 0) = 0 := by
  induction n with
  | zero => rfl
  | succ n ih =>
    rw [List.replicate_succ]
    show Max.max |(0 : ℚ)| (maxAbs (List.replicate n 0)) = 0
    rw [ih, abs_zero, max_self]

theorem maxAbs_map_mul (c : ℚ) (xs : List ℚ) :
    maxAbs (xs.map (fun v => v * c)) = |c| * maxAbs xs := by
  induction xs with
  | nil => simp [maxAbs]
  | cons x t ih =>
    simp only [List.map_cons, maxAbs, List.foldr_cons] at *
    rw [ih, abs_mul, mul_comm |x| |c|, mul_max_of_nonneg _ _ (abs_nonneg c)]

theorem ne_nil_of_maxAbs_pos (xs : List ℚ) (h : 0 < maxAbs xs) : xs ≠ [] := by
  intro he
  rw [he] at h
  exact lt_irrefl 0 h

theorem normalized_cutoff_pos (cutoff fs : ℚ) (h1 : 0 < fs) (h2 : 0 < cutoff) :
    0 < normalized_cutoff cutoff fs := by
  unfold normalized_cutoff
  positivity

theorem clamp_cutoff_mem (wn : ℚ) (h : 0 < wn) :
    0 < clamp_cutoff wn ∧ clamp_cutoff wn < 1 := by
  unfold clamp_cutoff
  split
  · refine ⟨by norm_num, by norm_num⟩
  · exact ⟨h, lt_of_not_le (by assumption)⟩

theorem clamp_cutoff_mem_iff (wn : ℚ) :
    (0 < clamp_cutoff wn ∧ clamp_cutoff wn < 1) ↔ 0 < wn := by
  constructor
  · intro h
    unfold clamp_cutoff at h
    rcases le_or_lt 1 wn with h1 | h1
    · linarith
    · rw [if_neg (not_le.2 h1)] at h
      exact h.1
  · exact clamp_cutoff_mem wn

theorem butter_ok (bcoef : ℤ → ℚ → List ℚ × List ℚ) (wn : ℚ)
    (h : 0 < wn ∧ wn < 1) : butter bcoef 5 wn = Except.ok (bcoef 5 wn) := by
  unfold butter
  rw [if_neg (by norm_num : ¬(5 : ℤ) < 0), if_pos h]

theorem butter_lowpass_filter_ok (bcoef : ℤ → ℚ → List ℚ × List ℚ)
    (data : List ℚ) (cutoff fs : ℚ) (h1 : 0 < fs) (h2 : 0 < cutoff) :
    butter_lowpass_filter bcoef data cutoff fs 5 =
      Except.ok
        (lfilter (bcoef 5 (clamp_cutoff (normalized_cutoff cutoff fs))).1
          (bcoef 5 (clamp_cutoff (normalized_cutoff cutoff fs))).2 data) := by
  unfold butter_lowpass_filter
  rw [if_neg (ne_of_gt h1),
    butter_ok bcoef _ (clamp_cutoff_mem _ (normalized_cutoff_pos cutoff fs h1 h2))]

theorem pyfloat_max_nan_left (x : PyFloat) :
    PyFloat.max PyFloat.nan x = PyFloat.nan := by
  cases x <;> rfl

theorem pyfloat_max_nan_right (x : PyFloat) :
    PyFloat.max x PyFloat.nan = PyFloat.nan := by
  cases x <;> rfl

theorem maxAbsPF_nan (data : List PyFloat) (h : PyFloat.nan ∈ data) :
    maxAbsPF data = PyFloat.nan := by
  induction data with
  | nil => cases h
  | cons x t ih =>
    rcases List.mem_cons.1 h with hx | ht
    · show PyFloat.max (PyFloat.abs x) (maxAbsPF t) = PyFloat.nan
      rw [← hx]
      exact pyfloat_max_nan_left _
    · show PyFloat.max (PyFloat.abs x) (maxAbsPF t) = PyFloat.nan
      rw [ih ht]
      exact pyfloat_max_nan_right _

/-- Shared evaluation fact: with the demonstration coefficient table, the
pipeline maps the one-sample buffer `[1]` at rate `4` and cutoff `1` to `[1]`
(the filtered sample `1/4` is normalized back to peak `1`). -/
theorem process_demo_one_eval : process_audio demoCoeffs [1] 4 1 = Except.ok [1] := by
  norm_num [process_audio, butter_lowpass_filter, butter, clamp_cutoff, normalized_cutoff,
    lfilter, lfilterAux, lfilterNext, dotRev, np_max_abs, librosa_normalize, maxAbs, tiny,
    demoCoeffs, List.range_succ, List.getD, abs_of_nonneg]

/-- Shared evaluation fact: the filtering stage maps `[1]` to `[1/4]` with the
demonstration coefficient table at rate `4` and cutoff `1`. -/
theorem blf_demo_one_eval :
    butter_lowpass_filter demoCoeffs [1] 1 4 5 = Except.ok [1/4] := by
  norm_num [butter_lowpass_filter, butter, clamp_cutoff, normalized_cutoff,
    lfilter, lfilterAux, lfilterNext, dotRev, demoCoeffs, List.range_succ, List.getD]

/-- Evaluation of `process_audio` in the gain-compensation branch: when the
filtering stage returned `filtered`, the input is non-silent, and the
filtered peak is not below the librosa normalization threshold, the output is
`filtered / maxAbs filtered * maxAbs data`. -/
theorem process_audio_gain_branch (bcoef : ℤ → ℚ → List ℚ × List ℚ)
    (data : List ℚ) (fs cutoff : ℚ) (filtered : List ℚ)
    (hf : butter_lowpass_filter bcoef data cutoff fs 5 = Except.ok filtered)
    (hdne : data ≠ []) (hd : 0 < maxAbs data) (hfne : filtered ≠ [])
    (hL : ¬ maxAbs filtered < tiny) :
    process_audio bcoef data fs cutoff =
      Except.ok ((filtered.map (fun v => v / maxAbs filtered)).map
        (fun v => v * maxAbs data)) := by
  unfold process_audio
  rw [hf]
  show (match np_max_abs data with
    | Except.error e => Except.error e
    | Except.ok max_val =>
      if 0 < max_val then
        match librosa_normalize filtered with
        | Except.error e => Except.error e
        | Except.ok nrm => Except.ok (nrm.map (fun v => v * max_val))
      else Except.ok filtered) = _
  unfold np_max_abs
  rw [if_neg hdne]
  show (if 0 < maxAbs data then
      match librosa_normalize filtered with
      | Except.error e => Except.error e
      | Except.ok nrm => Except.ok (nrm.map (fun v => v * maxAbs data))
    else Except.ok filtered) = _
  rw [if_pos hd]
  unfold librosa_normalize
  rw [if_neg hfne, if_neg hL]

/-!
The claims.
-/

/-- C1 counterexample: a buffer with a strictly positive peak (`2 ^ (-1030)`,
a denormal double) whose filtered peak falls below librosa's normalization
threshold `tiny`: `librosa.util.normalize` then leaves the filtered buffer
un-normalized, and the output peak (`2 ^ (-2062)`) is NOT within `1e-6`
relative of the input peak — the whole peak is lost, a relative error of
almost `1`. -/
theorem peak_restoration_cex :
    0 < maxAbs [(1:ℚ)/2^1030] ∧
      process_audio demoCoeffs [(1:ℚ)/2^1030] 4 1 = Except.ok [(1:ℚ)/2^2062] ∧
      maxAbs [(1:ℚ)/2^1030] - maxAbs [(1:ℚ)/2^2062] >
        1/1000000 * maxAbs [(1:ℚ)/2^1030] := by
  refine ⟨by norm_num [maxAbs, abs_of_nonneg], ?_, by norm_num [maxAbs, abs_of_nonneg]⟩
  norm_num [process_audio, butter_lowpass_filter, butter, clamp_cutoff, normalized_cutoff,
    lfilter, lfilterAux, lfilterNext, dotRev, np_max_abs, librosa_normalize, maxAbs, tiny,
    demoCoeffs, List.range_succ, List.getD, abs_of_nonneg]

/-- C1 (amended): peak restoration holds for every buffer with strictly
positive peak PROVIDED the filtered buffer's peak is at least the librosa
normalization threshold `tiny` (`2 ^ (-1022)`); then the output peak is
exactly the input peak in this exact-arithmetic model. -/
theorem peak_restoration_above_threshold (bcoef : ℤ → ℚ → List ℚ × List ℚ)
    (data : List ℚ) (fs cutoff : ℚ) (filtered : List ℚ)
    (hf : butter_lowpass_filter bcoef data cutoff fs 5 = Except.ok filtered)
    (hd : 0 < maxAbs data) (ht : tiny ≤ maxAbs filtered) :
    ∃ out, process_audio bcoef data fs cutoff = Except.ok out ∧
      maxAbs out = maxAbs data := by
  have htp : (0:ℚ) < tiny := by norm_num [tiny]
  have hLpos : 0 < maxAbs filtered := lt_of_lt_of_le htp ht
  have hdne := ne_nil_of_maxAbs_pos data hd
  have hfne := ne_nil_of_maxAbs_pos filtered hLpos
  refine ⟨_, process_audio_gain_branch bcoef data fs cutoff filtered hf hdne hd hfne
    (not_lt.2 ht), ?_⟩
  rw [List.map_map]
  have hfun : ((fun v => v * maxAbs data) ∘ (fun v => v / maxAbs filtered)) =
      fun v => v * (maxAbs data / maxAbs filtered) := by
    funext v
    simp only [Function.comp]
    rw [div_mul_eq_mul_div, mul_div_assoc]
  rw [hfun, maxAbs_map_mul, abs_of_nonneg (div_nonneg hd.le hLpos.le),
    div_mul_cancel₀ _ (ne_of_gt hLpos)]

/-- C1 witness: a concrete run whose filtered peak `1/4` is above `tiny`. -/
theorem peak_restoration_above_threshold_witness :
    butter_lowpass_filter demoCoeffs [1] 1 4 5 = Except.ok [1/4] ∧
      0 < maxAbs [(1:ℚ)] ∧ tiny ≤ maxAbs [(1:ℚ)/4] ∧
      ∃ out, process_audio demoCoeffs [1] 4 1 = Except.ok out ∧
        maxAbs out = maxAbs [(1:ℚ)] :=
  ⟨blf_demo_one_eval, by norm_num [maxAbs], by norm_num [maxAbs, tiny, abs_of_nonneg],
    peak_restoration_above_threshold demoCoeffs [1] 4 1 [1/4] blf_demo_one_eval
      (by norm_num [maxAbs]) (by norm_num [maxAbs, tiny, abs_of_nonneg])⟩

/-- C2: for every buffer and every (sample rate, cutoff), whenever the
pipeline returns a buffer it has exactly as many samples as the input —
neither the filtering stage nor the gain-compensation stage truncates or
extends the buffer. -/
theorem run_length_preservation (bcoef : ℤ → ℚ → List ℚ × List ℚ)
    (data : List ℚ) (fs cutoff out : _)
    (h : process_audio bcoef data fs cutoff = Except.ok out) :
    out.length = data.length := by
  unfold process_audio at h
  split at h
  · exact Except.noConfusion h
  · rename_i filtered hb
    have hfl : filtered.length = data.length := by
      unfold butter_lowpass_filter at hb
      split at hb
      · exact Except.noConfusion hb
      · split at hb
        · exact Except.noConfusion hb
        · rw [Except.ok.injEq] at hb
          rw [← hb, lfilter_length]
    split at h
    · exact Except.noConfusion h
    · rename_i max_val hm
      split at h
      · split at h
        · exact Except.noConfusion h
        · rename_i nrm hn
          have hnl : nrm.length = filtered.length := by
            unfold librosa_normalize at hn
            split at hn
            · exact Except.noConfusion hn
            · rw [Except.ok.injEq] at hn
              rw [← hn, List.length_map]
          rw [Except.ok.injEq] at h
          rw [← h, List.length_map, hnl, hfl]
      · rw [Except.ok.injEq] at h
        rw [← h, hfl]

/-- C2 witness: a concrete run where the pipeline succeeds, instantiating
`run_length_preservation`. -/
theorem run_length_preservation_witness :
    process_audio demoCoeffs [1] 4 1 = Except.ok [1] ∧
      ([1] : List ℚ).length = ([1] : List ℚ).length :=
  ⟨process_demo_one_eval,
    run_length_preservation demoCoeffs [1] 4 1 [1] process_demo_one_eval⟩

/-- C3: for every cutoff and positive sample rate with normalized cutoff
`cutoff / (fs/2) >= 1` (at or above Nyquist), the filter design does not
fail: the normalized cutoff is replaced by `0.99` and the designed filter is
applied.  In particular `cutoff = fs` (as in the spec scenario
`design(cutoff=rate, sample_rate=rate)`) satisfies the hypothesis. -/
theorem design_clamped_at_nyquist (bcoef : ℤ → ℚ → List ℚ × List ℚ)
    (data : List ℚ) (cutoff fs : ℚ) (h1 : 0 < fs)
    (h2 : 1 ≤ normalized_cutoff cutoff fs) :
    butter_lowpass_filter bcoef data cutoff fs 5 =
      Except.ok (lfilter (bcoef 5 (99/100)).1 (bcoef 5 (99/100)).2 data) := by
  have hcl : clamp_cutoff (normalized_cutoff cutoff fs) = 99/100 := by
    unfold clamp_cutoff
    rw [if_pos h2]
  unfold butter_lowpass_filter
  rw [if_neg (ne_of_gt h1), hcl, butter_ok bcoef _ (by norm_num)]

/-- C3 witness: `cutoff = rate = 4` (normalized cutoff `2 >= 1`) succeeds
with the clamped design. -/
theorem design_clamped_at_nyquist_witness :
    (0:ℚ) < 4 ∧ 1 ≤ normalized_cutoff 4 4 ∧
      butter_lowpass_filter demoCoeffs [1] 4 4 5 =
        Except.ok (lfilter (demoCoeffs 5 (99/100)).1 (demoCoeffs 5 (99/100)).2 [1]) :=
  ⟨by norm_num, by norm_num [normalized_cutoff],
    design_clamped_at_nyquist demoCoeffs [1] 4 4 (by norm_num)
      (by norm_num [normalized_cutoff])⟩

/-- C4 counterexample: on the empty buffer (with a perfectly valid rate and
cutoff) the pipeline does NOT return an empty buffer; it raises the numpy
`ValueError` from `np.max(np.abs([]))` (zero-size reduction). -/
theorem empty_buffer_cex :
    process_audio demoCoeffs [] 44100 3000 = Except.error PyError.valueError ∧
      ¬ process_audio demoCoeffs [] 44100 3000 = Except.ok [] := by
  have he : process_audio demoCoeffs [] 44100 3000 = Except.error PyError.valueError := by
    norm_num [process_audio, butter_lowpass_filter, butter, clamp_cutoff, normalized_cutoff,
      lfilter, lfilterAux, lfilterNext, dotRev, np_max_abs, librosa_normalize, maxAbs, tiny,
      demoCoeffs, List.range_succ, List.getD, abs_of_nonneg]
  refine ⟨he, fun h => ?_⟩
  rw [he] at h
  exact Except.noConfusion h

/-- C4 (amended): for every positive sample rate and cutoff, running the
pipeline on the empty buffer raises `ValueError` (from the numpy zero-size
reduction in `np.max(np.abs(data))`) instead of returning an empty buffer. -/
theorem empty_buffer_raises (bcoef : ℤ → ℚ → List ℚ × List ℚ) (fs cutoff : ℚ)
    (h1 : 0 < fs) (h2 : 0 < cutoff) :
    process_audio bcoef [] fs cutoff = Except.error PyError.valueError := by
  unfold process_audio
  rw [butter_lowpass_filter_ok bcoef [] cutoff fs h1 h2]
  rfl

/-- C4 witness: concrete rate `4` and cutoff `1`, instantiating
`empty_buffer_raises`. -/
theorem empty_buffer_raises_witness :
    (0:ℚ) < 4 ∧ (0:ℚ) < 1 ∧
      process_audio demoCoeffs [] 4 1 = Except.error PyError.valueError :=
  ⟨by norm_num, by norm_num,
    empty_buffer_raises demoCoeffs 4 1 (by norm_num) (by norm_num)⟩

/-- C5 counterexample: the claim quantifies over every length `n`, but at
`n = 0` the pipeline raises `ValueError` (numpy zero-size reduction) instead
of returning the all-zeros buffer of length `0`. -/
theorem silence_invariance_cex :
    process_audio demoCoeffs (List.replicate 0 (0:ℚ)) 44100 1500 =
        Except.error PyError.valueError ∧
      ¬ process_audio demoCoeffs (List.replicate 0 (0:ℚ)) 44100 1500 =
          Except.ok (List.replicate 0 0) := by
  have he : process_audio demoCoeffs (List.replicate 0 (0:ℚ)) 44100 1500 =
      Except.error PyError.valueError := by
    norm_num [process_audio, butter_lowpass_filter, butter, clamp_cutoff, normalized_cutoff,
      lfilter, lfilterAux, lfilterNext, dotRev, np_max_abs, librosa_normalize, maxAbs, tiny,
      demoCoeffs, List.range_succ, List.getD, abs_of_nonneg]
  refine ⟨he, fun h => ?_⟩
  rw [he] at h
  exact Except.noConfusion h

/-- C5 (amended): for every length `n >= 1` and every positive sample rate
and cutoff, the pipeline maps the all-zeros buffer of length `n` to the
all-zeros buffer of length `n` (the filtered zeros have peak `0`, so the
gain-compensation branch is skipped). -/
theorem silence_invariance_pos_len (bcoef : ℤ → ℚ → List ℚ × List ℚ) (n : ℕ)
    (fs cutoff : ℚ) (hn : 1 ≤ n) (h1 : 0 < fs) (h2 : 0 < cutoff) :
    process_audio bcoef (List.replicate n 0) fs cutoff =
      Except.ok (List.replicate n 0) := by
  have hne : List.replicate n (0:ℚ) ≠ [] := by
    cases n with
    | zero => exact absurd hn (by norm_num)
    | succ m => simp [List.replicate]
  unfold process_audio
  rw [butter_lowpass_filter_ok bcoef _ cutoff fs h1 h2, lfilter_zero]
  show (match np_max_abs (List.replicate n 0) with
    | Except.error e => Except.error e
    | Except.ok max_val =>
      if 0 < max_val then
        match librosa_normalize (List.replicate n 0) with
        | Except.error e => Except.error e
        | Except.ok nrm => Except.ok (nrm.map (fun v => v * max_val))
      else Except.ok (List.replicate n 0)) = Except.ok (List.replicate n 0)
  unfold np_max_abs
  rw [if_neg hne, maxAbs_replicate_zero]
  show (if (0:ℚ) < 0 then _ else Except.ok (List.replicate n 0)) =
    Except.ok (List.replicate n 0)
  rw [if_neg (lt_irrefl 0)]

/-- C5 witness: the one-sample zero buffer at rate `4`, cutoff `1`. -/
theorem silence_invariance_pos_len_witness :
    1 ≤ 1 ∧ (0:ℚ) < 4 ∧ (0:ℚ) < 1 ∧
      process_audio demoCoeffs (List.replicate 1 0) 4 1 =
        Except.ok (List.replicate 1 0) :=
  ⟨le_refl 1, by norm_num, by norm_num,
    silence_invariance_pos_len demoCoeffs 1 4 1 (le_refl 1) (by norm_num) (by norm_num)⟩

/-- C7 counterexample: with a strictly positive sample rate (`4`) and order
(`5`), the design still fails — at `cutoff = 0` the unclamped normalized
cutoff `0` makes `scipy.signal.butter` raise `ValueError`; so the design does
NOT succeed "for every positive sample rate and order regardless of the
cutoff value", and the failure set is not `sample_rate <= 0 or order <= 0`. -/
theorem design_error_contract_cex :
    (0:ℚ) < 4 ∧ (0:ℤ) < 5 ∧
      butter_lowpass_filter demoCoeffs [] 0 4 5 = Except.error PyError.valueError := by
  refine ⟨by norm_num, by norm_num, ?_⟩
  norm_num [butter_lowpass_filter, butter, clamp_cutoff, normalized_cutoff]

/-- C7 (amended): the filter design succeeds exactly when the sample rate is
non-zero, the order is non-negative and the normalized cutoff
`cutoff / (fs/2)` is strictly positive; the errors raised are Python
`ZeroDivisionError` (`fs = 0`) and scipy `ValueError` (negative order or
non-positive normalized cutoff), not a custom `InvalidParameterError`. -/
theorem design_error_contract (bcoef : ℤ → ℚ → List ℚ × List ℚ)
    (data : List ℚ) (cutoff fs : ℚ) (order : ℤ) :
    (∃ y, butter_lowpass_filter bcoef data cutoff fs order = Except.ok y) ↔
      (fs ≠ 0 ∧ 0 ≤ order ∧ 0 < normalized_cutoff cutoff fs) := by
  unfold butter_lowpass_filter butter
  by_cases hfs : fs = 0
  · simp [hfs]
  · rw [if_neg hfs]
    by_cases hord : order < 0
    · rw [if_pos hord]
      simp [hfs, not_le.2 hord]
    · rw [if_neg hord]
      have hord2 : 0 ≤ order := not_lt.1 hord
      by_cases hwn : 0 < clamp_cutoff (normalized_cutoff cutoff fs) ∧
          clamp_cutoff (normalized_cutoff cutoff fs) < 1
      · rw [if_pos hwn]
        simp [hfs, hord2, (clamp_cutoff_mem_iff _).1 hwn]
      · rw [if_neg hwn]
        have hnp : ¬ 0 < normalized_cutoff cutoff fs := fun hp =>
          hwn ((clamp_cutoff_mem_iff _).2 hp)
        simp [hfs, hord2, hnp]

/-- C8: the pipeline is a pure function of its inputs — two invocations with
identical (buffer, sample rate, cutoff) return identical results. -/
theorem pipeline_deterministic (bcoef : ℤ → ℚ → List ℚ × List ℚ)
    (d1 d2 : List ℚ) (fs1 fs2 c1 c2 : ℚ)
    (hd : d1 = d2) (hf : fs1 = fs2) (hc : c1 = c2) :
    process_audio bcoef d1 fs1 c1 = process_audio bcoef d2 fs2 c2 := by
  rw [hd, hf, hc]

/-- C8 witness: two textually separate but identical invocations. -/
theorem pipeline_deterministic_witness :
    ([1] : List ℚ) = [1] ∧ (4:ℚ) = 4 ∧ (1:ℚ) = 1 ∧
      process_audio demoCoeffs [1] 4 1 = process_audio demoCoeffs [1] 4 1 :=
  ⟨rfl, rfl, rfl, pipeline_deterministic demoCoeffs [1] [1] 4 4 1 1 rfl rfl rfl⟩

/-- C10: the clamp threshold is strict — whenever the normalized cutoff
`cutoff / (fs/2)` is `< 1` (positive rate), it is passed to the Butterworth
design completely unmodified; in particular a zero or negative cutoff yields
a non-positive normalized cutoff that is passed through unclamped, on which
the design then fails with `ValueError` rather than being raised to a valid
value. -/
theorem clamp_threshold_strict (bcoef : ℤ → ℚ → List ℚ × List ℚ)
    (data : List ℚ) (cutoff fs : ℚ) (order : ℤ)
    (h1 : 0 < fs) (h2 : normalized_cutoff cutoff fs < 1) :
    clamp_cutoff (normalized_cutoff cutoff fs) = normalized_cutoff cutoff fs ∧
      (cutoff ≤ 0 → normalized_cutoff cutoff fs ≤ 0) ∧
      (cutoff ≤ 0 →
        butter_lowpass_filter bcoef data cutoff fs order =
          Except.error PyError.valueError) := by
  have hcl : clamp_cutoff (normalized_cutoff cutoff fs) = normalized_cutoff cutoff fs := by
    unfold clamp_cutoff
    rw [if_neg (not_le.2 h2)]
  have hnonpos : cutoff ≤ 0 → normalized_cutoff cutoff fs ≤ 0 := by
    intro hc
    unfold normalized_cutoff
    have h3 : (0:ℚ) ≤ 1/2 * fs := by positivity
    exact div_nonpos_iff.2 (Or.inr ⟨hc, h3⟩)
  refine ⟨hcl, hnonpos, fun hc => ?_⟩
  unfold butter_lowpass_filter butter
  rw [if_neg (ne_of_gt h1), hcl]
  have hnp : ¬ (0 < normalized_cutoff cutoff fs ∧ normalized_cutoff cutoff fs < 1) :=
    fun h => absurd h.1 (not_lt.2 (hnonpos hc))
  by_cases hord : order < 0
  · rw [if_pos hord]
  · rw [if_neg hord, if_neg hnp]

/-- C6 counterexample: the gain-compensation step DOES fail on non-finite
inputs instead of propagating them: with a positive original peak and a `nan`
in the filtered buffer, `librosa.util.normalize` raises
`ParameterError("Input must be finite")`; end to end, a `+inf` sample in the
input drives the whole pipeline into that `ParameterError`. -/
theorem gain_compensation_nonfinite_cex :
    gain_compensation [PyFloat.fin 1] [PyFloat.nan] =
        Except.error PyError.parameterError ∧
      process_audio_pf demoCoeffs [PyFloat.pinf] 4 1 =
        Except.error PyError.parameterError := by
  constructor
  · norm_num [gain_compensation, np_max_abs_pf, maxAbsPF, PyFloat.abs, PyFloat.max,
      PyFloat.gtZero, librosa_normalize_pf, PyFloat.isFinite]
  · norm_num [process_audio_pf, butter_lowpass_filter_pf, butter, clamp_cutoff,
      normalized_cutoff, lfilterPF, lfilterAuxPF, lfilterNextPF, dotRevPF,
      gain_compensation, np_max_abs_pf, maxAbsPF, librosa_normalize_pf, demoCoeffs,
      List.range_succ, List.getD, PyFloat.add, PyFloat.mul, PyFloat.sub, PyFloat.neg,
      PyFloat.div, PyFloat.abs, PyFloat.max, PyFloat.gtZero, PyFloat.isFinite,
      PyFloat.lt, tiny]

/-- C6 (amended): the gain-compensation step is total on non-empty,
all-finite inputs — it never fails there; on non-finite filtered input with a
positive original peak it raises `ParameterError` (see the counterexample),
and on an empty original `np.max` raises `ValueError`. -/
theorem gain_compensation_total_on_finite (data filtered : List PyFloat)
    (hd : data ≠ []) (hf : filtered ≠ [])
    (hfin : filtered.all PyFloat.isFinite = true) :
    ∃ out, gain_compensation data filtered = Except.ok out := by
  unfold gain_compensation
  unfold np_max_abs_pf
  rw [if_neg hd]
  show ∃ out, (if PyFloat.gtZero (maxAbsPF data) = true then
      match librosa_normalize_pf filtered with
      | Except.error e => Except.error e
      | Except.ok nrm => Except.ok (nrm.map (fun v => PyFloat.mul v (maxAbsPF data)))
    else Except.ok filtered) = Except.ok out
  by_cases hg : PyFloat.gtZero (maxAbsPF data) = true
  · have hn : librosa_normalize_pf filtered =
        Except.ok (filtered.map (fun v =>
          PyFloat.div v (if PyFloat.lt (maxAbsPF filtered) (PyFloat.fin tiny)
                         then PyFloat.fin 1 else maxAbsPF filtered))) := by
      unfold librosa_normalize_pf
      rw [if_pos hfin, if_neg hf]
    rw [if_pos hg, hn]
    exact ⟨_, rfl⟩
  · rw [if_neg hg]
    exact ⟨filtered, rfl⟩

/-- C6 witness: a concrete non-empty all-finite pair of buffers. -/
theorem gain_compensation_total_on_finite_witness :
    ([PyFloat.fin 1] ≠ ([] : List PyFloat)) ∧
      ([PyFloat.fin (1/2)] ≠ ([] : List PyFloat)) ∧
      [PyFloat.fin (1/2)].all PyFloat.isFinite = true ∧
      ∃ out, gain_compensation [PyFloat.fin 1] [PyFloat.fin (1/2)] = Except.ok out :=
  ⟨by simp, by simp, rfl,
    gain_compensation_total_on_finite [PyFloat.fin 1] [PyFloat.fin (1/2)]
      (by simp) (by simp) rfl⟩

/-- C9: if the original buffer contains a `nan` sample, the computed peak
`np.max(np.abs(data))` is `nan`, the `max_val > 0` test is false, and the
pipeline returns the filtered buffer with no gain compensation applied. -/
theorem nan_peak_skips_compensation (bcoef : ℤ → ℚ → List ℚ × List ℚ)
    (data : List PyFloat) (fs cutoff : ℚ) (h : PyFloat.nan ∈ data) :
    np_max_abs_pf data = Except.ok PyFloat.nan ∧
      process_audio_pf bcoef data fs cutoff =
        butter_lowpass_filter_pf bcoef data cutoff fs 5 := by
  have hdne : data ≠ [] := List.ne_nil_of_mem h
  have hmax : np_max_abs_pf data = Except.ok PyFloat.nan := by
    unfold np_max_abs_pf
    rw [if_neg hdne, maxAbsPF_nan data h]
  refine ⟨hmax, ?_⟩
  unfold process_audio_pf
  cases hb : butter_lowpass_filter_pf bcoef data cutoff fs 5 with
  | error e => rfl
  | ok filtered =>
    unfold gain_compensation
    rw [hmax]
    rfl

/-- C9 witness: the one-sample `nan` buffer at rate `4`, cutoff `1`. -/
theorem nan_peak_skips_compensation_witness :
    PyFloat.nan ∈ [PyFloat.nan] ∧
      (np_max_abs_pf [PyFloat.nan] = Except.ok PyFloat.nan ∧
        process_audio_pf demoCoeffs [PyFloat.nan] 4 1 =
          butter_lowpass_filter_pf demoCoeffs [PyFloat.nan] 1 4 5) :=
  ⟨List.mem_singleton.2 rfl,
    nan_peak_skips_compensation demoCoeffs [PyFloat.nan] 4 1 (List.mem_singleton.2 rfl)⟩

/-- C10 witness: rate `4` with cutoff `1` (normalized cutoff `1/2 < 1`),
instantiating `clamp_threshold_strict`. -/
theorem clamp_threshold_strict_witness :
    (0:ℚ) < 4 ∧ normalized_cutoff 1 4 < 1 ∧
      (clamp_cutoff (normalized_cutoff 1 4) = normalized_cutoff 1 4 ∧
        ((1:ℚ) ≤ 0 → normalized_cutoff 1 4 ≤ 0) ∧
        ((1:ℚ) ≤ 0 →
          butter_lowpass_filter demoCoeffs [] 1 4 5 =
            Except.error PyError.valueError)) :=
  ⟨by norm_num, by norm_num [normalized_cutoff],
    clamp_threshold_strict demoCoeffs [] 1 4 5 (by norm_num)
      (by norm_num [normalized_cutoff])⟩
